import Mathlib

/-!
Shallow embedding of the `GatewayWatchdog` component (Discord gateway liveness
watchdog).  The embedding follows the TypeScript source line by line:

* configuration resolution in the constructor (`resolveWatchdogOpts`),
* the liveness-signal listener installed by `start()` (`recordSignal`),
* the periodic health check `check()` (`check`), returning the updated
  watchdog state, the updated gateway fields, the ordered list of immediate
  gateway calls, and the `setTimeout`-scheduled reconnects,
* a small-step operational model (`stepEv` over `Sys`) of the lifecycle:
  `start()`, `stop()`, emitter-delivered liveness signals, `setInterval`
  ticks and `setTimeout` firings, with an explicit log of gateway calls.

Times and durations are integer milliseconds (`Int`), matching `Date.now()`
arithmetic in the source.
-/

/-- Session identity fields reachable through `gateway.state` in the source:
`sessionId`, `resumeGatewayUrl`, `sequence` (each nullable). -/
structure SessionFields where
  sessionId : Option String
  resumeGatewayUrl : Option String
  sequence : Option Int
deriving DecidableEq, Repr

/-- The connection handle (`opts.gateway` in the source): connectivity flag,
the optional back-reference `state` holding session identity, and the
optional top-level `sequence` field (`hasSequenceField` models the
`"sequence" in gateway` presence test). -/
structure Gateway where
  isConnected : Bool
  state : Option SessionFields
  hasSequenceField : Bool
  sequence : Option Int
deriving DecidableEq, Repr

/-- Mutable watchdog-owned state: `lastEventAt` and `consecutiveStale`. -/
structure WdState where
  lastEventAt : Int
  consecutiveStale : Nat
deriving DecidableEq, Repr

/-- Constructor options as passed in (`GatewayWatchdogOpts`): each timing
field may be absent. -/
structure GatewayWatchdogOpts where
  checkIntervalMs : Option Int
  staleThresholdMs : Option Int
  maxStaleBeforeFreshConnect : Option Int
deriving DecidableEq, Repr

/-- Resolved configuration after the constructor's defaulting merge. -/
structure WatchdogOpts where
  checkIntervalMs : Int
  staleThresholdMs : Int
  maxStaleBeforeFreshConnect : Int
deriving DecidableEq, Repr

/-- The constructor body: `this.opts = { checkIntervalMs: 60_000,
staleThresholdMs: 120_000, maxStaleBeforeFreshConnect: 3, ...opts }`.
No validation is performed anywhere in the constructor. -/
def resolveWatchdogOpts (o : GatewayWatchdogOpts) : WatchdogOpts :=
  { checkIntervalMs := o.checkIntervalMs.getD 60000
    staleThresholdMs := o.staleThresholdMs.getD 120000
    maxStaleBeforeFreshConnect := o.maxStaleBeforeFreshConnect.getD 3 }

/-- Immediate calls the watchdog makes on the gateway handle, in program
order.  `clearSessionState` stands for the three `gateway.state` field
assignments, `clearSequenceField` for the top-level `gateway.sequence = null`. -/
inductive GwCall where
  | clearSessionState
  | clearSequenceField
  | disconnect
  | connect (resume : Bool)
deriving DecidableEq, Repr

/-- Result of one `check()` invocation: new watchdog state, new gateway
fields, the ordered immediate calls, and the `setTimeout`-scheduled
reconnects as (due time, resume flag) pairs. -/
structure CheckResult where
  wd : WdState
  gw : Gateway
  calls : List GwCall
  scheduled : List (Int × Bool)
deriving DecidableEq, Repr

/-- The liveness-signal listener installed by `start()`:
`this.lastEventAt = Date.now(); this.consecutiveStale = 0;`. -/
def recordSignal (now : Int) (_wd : WdState) : WdState :=
  { lastEventAt := now, consecutiveStale := 0 }

/-- The private `check()` method, translated clause by clause:
healthy early return; `consecutiveStale++`; disconnected early return;
fresh-connect branch (clear session identity, disconnect, schedule
`connect(false)` after 1000 ms, reset counter, refresh `lastEventAt`);
resume branch (disconnect, schedule `connect(true)` after 1000 ms,
refresh `lastEventAt`). -/
def check (cfg : WatchdogOpts) (now : Int) (wd : WdState) (gw : Gateway) :
    CheckResult :=
  let silentMs := now - wd.lastEventAt
  if silentMs < cfg.staleThresholdMs then
    { wd := wd, gw := gw, calls := [], scheduled := [] }
  else
    let stale1 := wd.consecutiveStale + 1
    if gw.isConnected = false then
      { wd := { lastEventAt := wd.lastEventAt, consecutiveStale := stale1 }
        gw := gw, calls := [], scheduled := [] }
    else if cfg.maxStaleBeforeFreshConnect ≤ (stale1 : Int) then
      let gw1 : Gateway :=
        { gw with
          state := match gw.state with
            | some _ => some { sessionId := none, resumeGatewayUrl := none, sequence := none }
            | none => none
          sequence := if gw.hasSequenceField then none else gw.sequence }
      { wd := { lastEventAt := now, consecutiveStale := 0 }
        gw := gw1
        calls :=
          (match gw.state with
            | some _ => [GwCall.clearSessionState]
            | none => []) ++
          (if gw.hasSequenceField then [GwCall.clearSequenceField] else []) ++
          [GwCall.disconnect]
        scheduled := [(now + 1000, false)] }
    else
      { wd := { lastEventAt := now, consecutiveStale := stale1 }
        gw := gw, calls := [GwCall.disconnect]
        scheduled := [(now + 1000, true)] }

/-- Whole-system state for the lifecycle model: watchdog state, gateway
fields, the emitter's registered-listener ids, the stored
`this.eventListener` reference, the live `setInterval` ids, the stored
`this.checkTimer` reference, pending `setTimeout` reconnects, the log of
gateway calls made so far (with the time they happened), and a fresh-id
counter for new registrations. -/
structure Sys where
  wd : WdState
  gw : Gateway
  emitterListeners : List Nat
  storedListener : Option Nat
  intervals : List Nat
  storedTimer : Option Nat
  pending : List (Int × Bool)
  callLog : List (Int × GwCall)
  nextId : Nat
deriving DecidableEq, Repr

/-- External events driving the lifecycle model: `start()`, `stop()`, an
emitter liveness event at a time, a `setInterval` tick of a given timer id
at a time, and the firing of due `setTimeout` callbacks at a time. -/
inductive Ev where
  | startEv
  | stopEv
  | signalEv (now : Int)
  | tickEv (now : Int) (tid : Nat)
  | fireEv (now : Int)
deriving DecidableEq, Repr

/-- One step of the lifecycle model, mirroring the source:

* `startEv` — `start()`: registers a new listener on the emitter and
  overwrites `this.eventListener`; creates a new interval and overwrites
  `this.checkTimer`.  Nothing is removed and no running-state test is made.
* `stopEv` — `stop()`: clears the stored interval (only that one) and
  removes the stored listener (only that one); pending `setTimeout`
  reconnects are not touched.
* `signalEv` — a gateway event: every registered listener runs the same
  closure, so with at least one registration the effect is `recordSignal`.
* `tickEv` — an interval callback: runs `check()` when the interval is
  still live, appending its immediate calls to the log and its scheduled
  reconnects to the pending list.
* `fireEv` — `setTimeout` callbacks whose due time has arrived run,
  each calling `gateway.connect(resume)` unconditionally. -/
def stepEv (cfg : WatchdogOpts) (s : Sys) : Ev → Sys
  | .startEv =>
      { s with
        emitterListeners := s.emitterListeners ++ [s.nextId]
        storedListener := some s.nextId
        intervals := s.intervals ++ [s.nextId + 1]
        storedTimer := some (s.nextId + 1)
        nextId := s.nextId + 2 }
  | .stopEv =>
      let s1 :=
        match s.storedTimer with
        | some t => { s with intervals := s.intervals.erase t, storedTimer := none }
        | none => s
      match s1.storedListener with
      | some l => { s1 with emitterListeners := s1.emitterListeners.erase l, storedListener := none }
      | none => s1
  | .signalEv now =>
      if s.emitterListeners.isEmpty then s
      else { s with wd := recordSignal now s.wd }
  | .tickEv now tid =>
      if s.intervals.contains tid then
        let r := check cfg now s.wd s.gw
        { s with
          wd := r.wd
          gw := r.gw
          callLog := s.callLog ++ r.calls.map (fun c => (now, c))
          pending := s.pending ++ r.scheduled }
      else s
  | .fireEv now =>
      { s with
        pending := s.pending.filter (fun p => decide (now < p.1))
        callLog := s.callLog ++
          (s.pending.filter (fun p => decide (p.1 ≤ now))).map
            (fun p => (now, GwCall.connect p.2)) }

/-- Folding a list of events through the step function. -/
def runEvs (cfg : WatchdogOpts) (s : Sys) : List Ev → Sys
  | [] => s
  | e :: es => runEvs cfg (stepEv cfg s e) es

/-- Default configuration (all constructor options absent). -/
def cfg0 : WatchdogOpts := resolveWatchdogOpts ⟨none, none, none⟩

/-- A freshly constructed watchdog bound to a connected gateway with a live
session, before `start()` is called, with creation time 0. -/
def sys0 : Sys :=
  { wd := { lastEventAt := 0, consecutiveStale := 0 }
    gw := { isConnected := true
            state := some { sessionId := some "s", resumeGatewayUrl := some "u", sequence := some 5 }
            hasSequenceField := true
            sequence := some 5 }
    emitterListeners := []
    storedListener := none
    intervals := []
    storedTimer := none
    pending := []
    callLog := []
    nextId := 0 }

/-- A connected gateway with a live session, used as a concrete input. -/
def gwC : Gateway :=
  { isConnected := true
    state := some { sessionId := some "s", resumeGatewayUrl := some "u", sequence := some 5 }
    hasSequenceField := true
    sequence := some 5 }

/-- The same gateway reporting disconnected. -/
def gwD : Gateway := { gwC with isConnected := false }

/-- C1: a periodic check that runs while connected and stale, with the
incremented consecutive-stale count at or above
`maxStaleBeforeFreshConnect`, clears the session identity fields
(`sessionId`, `resumeGatewayUrl`, `sequence`) before calling
`disconnect()`, schedules `connect(resume := false)` for 1000 ms later
(the settle delay), and resets the consecutive-stale count to 0. -/
theorem fresh_reconnect_clears_session (cfg : WatchdogOpts) (now : Int)
    (wd : WdState) (gw : Gateway) (st : SessionFields)
    (hconn : gw.isConnected = true) (hst : gw.state = some st)
    (hseq : gw.hasSequenceField = true)
    (hstale : cfg.staleThresholdMs ≤ now - wd.lastEventAt)
    (hmax : cfg.maxStaleBeforeFreshConnect ≤ ((wd.consecutiveStale + 1 : Nat) : Int)) :
    check cfg now wd gw =
      { wd := { lastEventAt := now, consecutiveStale := 0 }
        gw := { gw with
                state := some { sessionId := none, resumeGatewayUrl := none, sequence := none }
                sequence := none }
        calls := [GwCall.clearSessionState, GwCall.clearSequenceField, GwCall.disconnect]
        scheduled := [(now + 1000, false)] } := by
  have h1 : ¬ (now - wd.lastEventAt < cfg.staleThresholdMs) := by omega
  simp [check, h1, hconn, hst, hseq, hmax]
  omega

/-- Witness for C1 at a concrete stale third check. -/
theorem fresh_reconnect_clears_session_witness :
    check cfg0 240000 ⟨120000, 2⟩ gwC =
      { wd := { lastEventAt := 240000, consecutiveStale := 0 }
        gw := { gwC with
                state := some { sessionId := none, resumeGatewayUrl := none, sequence := none }
                sequence := none }
        calls := [GwCall.clearSessionState, GwCall.clearSequenceField, GwCall.disconnect]
        scheduled := [(241000, false)] } :=
  fresh_reconnect_clears_session cfg0 240000 ⟨120000, 2⟩ gwC
    ⟨some "s", some "u", some 5⟩ (by decide) (by decide) (by decide)
    (by decide) (by decide)

/-- C2: with `maxStaleBeforeFreshConnect = 3`, a periodic check that runs
while connected and stale with an incremented count of exactly 1 or 2
calls `disconnect()`, schedules `connect(resume := true)` for 1000 ms
later, and leaves every gateway session field unchanged. -/
theorem resume_reconnect_preserves_session (cfg : WatchdogOpts) (now : Int)
    (wd : WdState) (gw : Gateway)
    (hcfg : cfg.maxStaleBeforeFreshConnect = 3)
    (hconn : gw.isConnected = true)
    (hstale : cfg.staleThresholdMs ≤ now - wd.lastEventAt)
    (hcnt : wd.consecutiveStale + 1 = 1 ∨ wd.consecutiveStale + 1 = 2) :
    check cfg now wd gw =
      { wd := { lastEventAt := now, consecutiveStale := wd.consecutiveStale + 1 }
        gw := gw
        calls := [GwCall.disconnect]
        scheduled := [(now + 1000, true)] } := by
  have h1 : ¬ (now - wd.lastEventAt < cfg.staleThresholdMs) := by omega
  have h3 : ¬ (cfg.maxStaleBeforeFreshConnect ≤ ((wd.consecutiveStale + 1 : Nat) : Int)) := by
    rcases hcnt with h | h <;> rw [hcfg] <;> omega
  simp [check, h1, hconn, h3]
  omega

/-- Witness for C2 at a concrete first stale check. -/
theorem resume_reconnect_preserves_session_witness :
    check cfg0 120000 ⟨0, 0⟩ gwC =
      { wd := { lastEventAt := 120000, consecutiveStale := 1 }
        gw := gwC
        calls := [GwCall.disconnect]
        scheduled := [(121000, true)] } :=
  resume_reconnect_preserves_session cfg0 120000 ⟨0, 0⟩ gwC
    (by decide) (by decide) (by decide) (Or.inl rfl)

/-- C3 counterexample: a stale check while disconnected increments
`consecutiveStale` from 0 to 1, contradicting the claim that the count is
left exactly unchanged. -/
theorem stale_disconnected_counterexample :
    (check cfg0 120000 ⟨0, 0⟩ gwD).wd.consecutiveStale = 1 ∧
      (⟨0, 0⟩ : WdState).consecutiveStale = 0 := by decide

/-- C3 as amended: a stale check while disconnected makes no gateway call,
schedules nothing, leaves the gateway fields and `lastEventAt` unchanged,
and does not reset the consecutive-stale count, but it does increment the
count by one (the increment precedes the connectivity test). -/
theorem stale_disconnected_defers (cfg : WatchdogOpts) (now : Int)
    (wd : WdState) (gw : Gateway)
    (hconn : gw.isConnected = false)
    (hstale : cfg.staleThresholdMs ≤ now - wd.lastEventAt) :
    check cfg now wd gw =
      { wd := { lastEventAt := wd.lastEventAt, consecutiveStale := wd.consecutiveStale + 1 }
        gw := gw
        calls := []
        scheduled := [] } := by
  have h1 : ¬ (now - wd.lastEventAt < cfg.staleThresholdMs) := by omega
  simp [check, h1, hconn]

/-- Witness for the amended C3 at a concrete disconnected stale check. -/
theorem stale_disconnected_defers_witness :
    check cfg0 120000 ⟨0, 0⟩ gwD =
      { wd := { lastEventAt := 0, consecutiveStale := 1 }
        gw := gwD
        calls := []
        scheduled := [] } :=
  stale_disconnected_defers cfg0 120000 ⟨0, 0⟩ gwD (by decide) (by decide)

/-- C5: a check whose silence is strictly below the stale threshold is a
complete no-op: the watchdog state, the gateway fields, the call list and
the schedule are all untouched. -/
theorem healthy_check_no_action (cfg : WatchdogOpts) (now : Int)
    (wd : WdState) (gw : Gateway)
    (h : now - wd.lastEventAt < cfg.staleThresholdMs) :
    check cfg now wd gw = { wd := wd, gw := gw, calls := [], scheduled := [] } := by
  simp [check, h]

/-- Witness for C5 at a concrete healthy check. -/
theorem healthy_check_no_action_witness :
    check cfg0 60000 ⟨0, 0⟩ gwC = { wd := ⟨0, 0⟩, gw := gwC, calls := [], scheduled := [] } :=
  healthy_check_no_action cfg0 60000 ⟨0, 0⟩ gwC (by decide)

/-- C6: while at least one listener is registered, every delivered liveness
event sets `lastEventAt` to the delivery time and `consecutiveStale` to 0,
and an immediately following event has the same full effect again. -/
theorem signal_resets_state (cfg : WatchdogOpts) (s : Sys) (now now2 : Int)
    (h : s.emitterListeners ≠ []) :
    (stepEv cfg s (Ev.signalEv now)).wd =
      { lastEventAt := now, consecutiveStale := 0 } ∧
    (stepEv cfg (stepEv cfg s (Ev.signalEv now)) (Ev.signalEv now2)).wd =
      { lastEventAt := now2, consecutiveStale := 0 } := by
  have he : s.emitterListeners.isEmpty = false := by
    simpa [List.isEmpty_iff] using h
  simp [stepEv, he, recordSignal]

/-- Witness for C6: two back-to-back signals at the same instant after a
single `start()`. -/
theorem signal_resets_state_witness :
    (stepEv cfg0 (stepEv cfg0 sys0 Ev.startEv) (Ev.signalEv 5)).wd =
      { lastEventAt := 5, consecutiveStale := 0 } ∧
    (stepEv cfg0 (stepEv cfg0 (stepEv cfg0 sys0 Ev.startEv) (Ev.signalEv 5))
        (Ev.signalEv 5)).wd =
      { lastEventAt := 5, consecutiveStale := 0 } :=
  signal_resets_state cfg0 (stepEv cfg0 sys0 Ev.startEv) 5 5 (by decide)

/-- Events that only the emitter or the interval timer can deliver:
liveness signals and periodic ticks. -/
def isPassiveEv : Ev → Bool
  | Ev.signalEv _ => true
  | Ev.tickEv _ _ => true
  | _ => false

/-- With no registered listener and no live interval, a signal or tick
leaves the whole system state untouched. -/
theorem stepEv_passive_fixed (cfg : WatchdogOpts) (s : Sys)
    (hl : s.emitterListeners = []) (hi : s.intervals = [])
    (e : Ev) (he : isPassiveEv e = true) : stepEv cfg s e = s := by
  cases e with
  | startEv => simp [isPassiveEv] at he
  | stopEv => simp [isPassiveEv] at he
  | fireEv now => simp [isPassiveEv] at he
  | signalEv now => simp [stepEv, hl]
  | tickEv now tid => simp [stepEv, hi]

/-- With no registered listener and no live interval, any sequence of
signals and ticks leaves the whole system state untouched. -/
theorem runEvs_passive_fixed (cfg : WatchdogOpts) (s : Sys)
    (hl : s.emitterListeners = []) (hi : s.intervals = []) :
    ∀ evs : List Ev, (∀ e ∈ evs, isPassiveEv e = true) → runEvs cfg s evs = s := by
  intro evs
  induction evs with
  | nil => intro _; rfl
  | cons e es ih =>
      intro hall
      have h1 : stepEv cfg s e = s :=
        stepEv_passive_fixed cfg s hl hi e (hall e (List.mem_cons_self e es))
      simp only [runEvs, h1]
      exact ih fun x hx => hall x (List.mem_cons_of_mem e hx)

/-- C4 as amended: from a running state with exactly one registered
listener and one live interval, `stop()` removes both, and afterwards no
sequence of liveness events and timer ticks changes anything — but this
says nothing about `setTimeout` reconnects already scheduled before
`stop()`, which still fire (see the counterexample). -/
theorem stop_halts_checks_and_signals (cfg : WatchdogOpts) (s : Sys) (t l : Nat)
    (ht : s.storedTimer = some t) (hi : s.intervals = [t])
    (hl : s.storedListener = some l) (he : s.emitterListeners = [l]) :
    (stepEv cfg s Ev.stopEv).intervals = [] ∧
    (stepEv cfg s Ev.stopEv).emitterListeners = [] ∧
    ∀ evs : List Ev, (∀ e ∈ evs, isPassiveEv e = true) →
      runEvs cfg (stepEv cfg s Ev.stopEv) evs = stepEv cfg s Ev.stopEv := by
  have hstep : (stepEv cfg s Ev.stopEv).intervals = [] ∧
      (stepEv cfg s Ev.stopEv).emitterListeners = [] := by
    simp [stepEv, ht, hi, hl, he, List.erase_cons_head]
  exact ⟨hstep.1, hstep.2,
    runEvs_passive_fixed cfg (stepEv cfg s Ev.stopEv) hstep.2 hstep.1⟩

/-- System state after `start()` and one stale tick: the check has run and a
resume `connect` is pending in a `setTimeout`. -/
def sysAfterStale : Sys := runEvs cfg0 sys0 [Ev.startEv, Ev.tickEv 120000 1]

/-- Witness for the amended C4: after `stop()`, a signal and a further tick
change nothing. -/
theorem stop_halts_checks_and_signals_witness :
    runEvs cfg0 (stepEv cfg0 sysAfterStale Ev.stopEv)
        [Ev.signalEv 130000, Ev.tickEv 180000 1]
      = stepEv cfg0 sysAfterStale Ev.stopEv :=
  (stop_halts_checks_and_signals cfg0 sysAfterStale 1 0
      (by decide) (by decide) (by decide) (by decide)).2.2
    [Ev.signalEv 130000, Ev.tickEv 180000 1] (by decide)

/-- C4 counterexample: a check at 120 s schedules a resume `connect` for
121 s; `stop()` then runs to completion (timer and listener both gone),
yet at 121 s the pending `setTimeout` still fires and calls
`connect(resume := true)` on the gateway — a transport call after
`stop()` returned, caused by an action scheduled before it. -/
theorem stop_pending_connect_counterexample :
    (runEvs cfg0 sys0 [Ev.startEv, Ev.tickEv 120000 1, Ev.stopEv]).intervals = [] ∧
    (runEvs cfg0 sys0 [Ev.startEv, Ev.tickEv 120000 1, Ev.stopEv]).emitterListeners = [] ∧
    (runEvs cfg0 sys0 [Ev.startEv, Ev.tickEv 120000 1, Ev.stopEv]).callLog
      = [(120000, GwCall.disconnect)] ∧
    (runEvs cfg0 sys0 [Ev.startEv, Ev.tickEv 120000 1, Ev.stopEv, Ev.fireEv 121000]).callLog
      = [(120000, GwCall.disconnect), (121000, GwCall.connect true)] := by decide

/-- Events on which the source resets `consecutiveStale` to 0: a delivered
liveness event (at least one listener registered), or a tick of a live
interval whose check finds the gateway stale, connected, and at the
fresh-connect level. -/
def isResetEv (cfg : WatchdogOpts) (s : Sys) : Ev → Bool
  | Ev.signalEv _ => !s.emitterListeners.isEmpty
  | Ev.tickEv now tid =>
      s.intervals.contains tid &&
        !(decide (now - s.wd.lastEventAt < cfg.staleThresholdMs)) &&
        s.gw.isConnected &&
        decide (cfg.maxStaleBeforeFreshConnect ≤ ((s.wd.consecutiveStale + 1 : Nat) : Int))
  | _ => false

/-- C7: across every operation of the model, `consecutiveStale` is reset to
0 exactly on the reset events (a recorded liveness event, or a check
completing a fresh-reconnect escalation) and never decreases on any other
event. -/
theorem stale_counter_monotone_resets (cfg : WatchdogOpts) (s : Sys) (e : Ev) :
    (isResetEv cfg s e = true → (stepEv cfg s e).wd.consecutiveStale = 0) ∧
    (isResetEv cfg s e = false →
      s.wd.consecutiveStale ≤ (stepEv cfg s e).wd.consecutiveStale) := by
  cases e with
  | startEv => simp [stepEv, isResetEv]
  | stopEv =>
      have hwd : (stepEv cfg s Ev.stopEv).wd = s.wd := by
        simp only [stepEv]
        cases s.storedTimer <;> cases hsl : s.storedListener <;> simp [hsl]
      exact ⟨by simp [isResetEv], fun _ => le_of_eq (by rw [hwd])⟩
  | fireEv now => simp [stepEv, isResetEv]
  | signalEv now =>
      by_cases hp : s.emitterListeners.isEmpty <;>
        simp [stepEv, isResetEv, hp, recordSignal]
  | tickEv now tid =>
      by_cases hc : tid ∈ s.intervals
      · have hcb : s.intervals.contains tid = true := by simpa using hc
        by_cases hh : now - s.wd.lastEventAt < cfg.staleThresholdMs
        · constructor
          · intro htr
            simp [isResetEv, hh] at htr
          · intro _
            simp [stepEv, hcb, hc, check, hh]
        · by_cases hm : cfg.maxStaleBeforeFreshConnect ≤ (s.wd.consecutiveStale : Int) + 1
          · cases hg : s.gw.isConnected with
            | false =>
                constructor
                · intro htr
                  simp [isResetEv, hg] at htr
                · intro _
                  simp [stepEv, hcb, hc, check, hh, hg]
            | true =>
                constructor
                · intro _
                  simp [stepEv, hcb, hc, check, hh, hg, hm]
                · intro hfr
                  simp [isResetEv, hcb, hc, hh, hg, hm] at hfr
          · constructor
            · intro htr
              simp [isResetEv, hm] at htr
            · intro _
              cases hg : s.gw.isConnected <;>
                simp [stepEv, hcb, hc, check, hh, hg, hm]
      · have hcb : s.intervals.contains tid = false := by simpa using hc
        constructor
        · intro htr
          simp [isResetEv, hcb] at htr
          exact absurd htr.1.1.1 hc
        · intro _
          simp [stepEv, hcb, hc]

/-- Witness for C7: a delivered signal after `start()` resets the counter. -/
theorem stale_counter_monotone_resets_witness :
    (stepEv cfg0 (stepEv cfg0 sys0 Ev.startEv) (Ev.signalEv 7)).wd.consecutiveStale = 0 :=
  (stale_counter_monotone_resets cfg0 (stepEv cfg0 sys0 Ev.startEv) (Ev.signalEv 7)).1
    (by decide)

/-- C8 counterexample: constructing with `checkIntervalMs = 0` and
`staleThresholdMs = -5` succeeds and stores both non-positive values
unchanged — nothing signals an invalid configuration. -/
theorem config_no_validation_counterexample :
    resolveWatchdogOpts ⟨some 0, some (-5), none⟩ =
      { checkIntervalMs := 0, staleThresholdMs := -5, maxStaleBeforeFreshConnect := 3 } := by
  decide

/-- C8 as amended: the constructor performs no validation at all —
non-positive `checkIntervalMs` and `staleThresholdMs` values are accepted
silently and stored exactly as given. -/
theorem config_accepts_nonpositive (c s : Int) (_hc : c ≤ 0) (_hs : s ≤ 0) :
    resolveWatchdogOpts ⟨some c, some s, none⟩ =
      { checkIntervalMs := c, staleThresholdMs := s, maxStaleBeforeFreshConnect := 3 } :=
  rfl

/-- Witness for the amended C8 at the concrete values 0 and -5. -/
theorem config_accepts_nonpositive_witness :
    resolveWatchdogOpts ⟨some 0, some (-5), none⟩ =
      { checkIntervalMs := 0, staleThresholdMs := -5, maxStaleBeforeFreshConnect := 3 } :=
  config_accepts_nonpositive 0 (-5) (by decide) (by decide)

/-- C9 counterexample: calling `start()` twice from the initial state is
neither a no-op nor rejected — a second listener (id 2) and a second
interval (id 3) appear — and the following `stop()` removes only the
second pair, leaving listener 0 and interval 1 installed forever. -/
theorem start_twice_counterexample :
    (runEvs cfg0 sys0 [Ev.startEv, Ev.startEv]).emitterListeners = [0, 2] ∧
    (runEvs cfg0 sys0 [Ev.startEv, Ev.startEv]).intervals = [1, 3] ∧
    (runEvs cfg0 sys0 [Ev.startEv, Ev.startEv, Ev.stopEv]).emitterListeners = [0] ∧
    (runEvs cfg0 sys0 [Ev.startEv, Ev.startEv, Ev.stopEv]).intervals = [1] := by
  decide

/-- C9 as amended: calling `start()` while already running registers an
additional listener and an additional interval and overwrites the stored
references, so a subsequent `stop()` removes only the new pair: the
earlier listener and interval survive and can no longer be cancelled. -/
theorem start_while_running_duplicates (cfg : WatchdogOpts) (s : Sys)
    (hrunL : s.emitterListeners ≠ []) (hrunT : s.intervals ≠ [])
    (hfl : s.nextId ∉ s.emitterListeners) (hft : s.nextId + 1 ∉ s.intervals) :
    (stepEv cfg s Ev.startEv).emitterListeners.length = s.emitterListeners.length + 1 ∧
    (stepEv cfg s Ev.startEv).intervals.length = s.intervals.length + 1 ∧
    (stepEv cfg (stepEv cfg s Ev.startEv) Ev.stopEv).emitterListeners = s.emitterListeners ∧
    (stepEv cfg (stepEv cfg s Ev.startEv) Ev.stopEv).intervals = s.intervals ∧
    (stepEv cfg (stepEv cfg s Ev.startEv) Ev.stopEv).emitterListeners ≠ [] ∧
    (stepEv cfg (stepEv cfg s Ev.startEv) Ev.stopEv).intervals ≠ [] := by
  have hel : (stepEv cfg (stepEv cfg s Ev.startEv) Ev.stopEv).emitterListeners
      = s.emitterListeners := by
    simp [stepEv, List.erase_append_right _ hfl, List.erase_append_right _ hft,
      List.erase_cons_head]
  have hit : (stepEv cfg (stepEv cfg s Ev.startEv) Ev.stopEv).intervals
      = s.intervals := by
    simp [stepEv, List.erase_append_right _ hfl, List.erase_append_right _ hft,
      List.erase_cons_head]
  refine ⟨by simp [stepEv], by simp [stepEv], hel, hit, ?_, ?_⟩
  · rw [hel]; exact hrunL
  · rw [hit]; exact hrunT

/-- Witness for the amended C9: after a second `start()` and a `stop()`,
the first listener and interval are still those installed by the first
`start()`. -/
theorem start_while_running_duplicates_witness :
    (stepEv cfg0 (stepEv cfg0 (stepEv cfg0 sys0 Ev.startEv) Ev.startEv) Ev.stopEv).intervals
      = (stepEv cfg0 sys0 Ev.startEv).intervals :=
  (start_while_running_duplicates cfg0 (stepEv cfg0 sys0 Ev.startEv)
      (by decide) (by decide) (by decide) (by decide)).2.2.2.1
